import Mathlib

/-!
# Verification of the Hybrid Model Router

A shallow embedding of `openclaw-local/dist/agents/hybrid-router.js` — the
complexity classifier, the routing decision engine, config resolution,
credential detection, context adaptation and the stream wrapper — together
with theorems settling the specification claims about them.

Conventions of the embedding:
* JavaScript strings are Lean `String`s; nullable values are `Option`s and
  JS truthiness of a string value is `strTruthy` (`null`/`""` are falsy).
* Floating point scores are embedded as exact rationals (`Rat`); every weight
  in the source (0.15, 0.20, …) is a decimal fraction, so all additions are
  exact and the JS float arithmetic on these values agrees with `Rat`.
* The compiled case-insensitive keyword regexes of the source are embedded as
  executable matchers over the lower-cased character list (JS `\w`, `\b` and
  `\s` are ASCII-based, matching these definitions).
* Config-supplied force patterns (arbitrary `RegExp` objects) are abstract:
  a `RegexPat` carries its `source` and its `test` function.
-/

namespace HybridClaw

/-- JS truthiness of a nullable string: `null` and `""` are falsy. -/
def strTruthy : Option String → Bool
  | none => false
  | some s => s ≠ ""

/-- JS `\s` whitespace: space, tab, line terminators, and the Unicode
space separators. -/
def jsWs (c : Char) : Bool :=
  c = ' ' || c = '\t' || c = '\n' || c = '\r' ||
  c = '\x0b' || c = '\x0c' || c = '\u00A0' || c = '\u1680' ||
  ('\u2000' ≤ c && c ≤ '\u200A') ||
  c = '\u2028' || c = '\u2029' || c = '\u202F' || c = '\u205F' ||
  c = '\u3000' || c = '\uFEFF'

/-- JS `\w` word character: `[A-Za-z0-9_]`. -/
def jsWordChar (c : Char) : Bool :=
  ('a' ≤ c && c ≤ 'z') || ('A' ≤ c && c ≤ 'Z') || ('0' ≤ c && c ≤ '9') || c = '_'

/-- JS line terminators (the characters `.` does not match). -/
def jsLineTerm (c : Char) : Bool :=
  c = '\n' || c = '\r' || c = '\u2028' || c = '\u2029'

/-- ASCII lower-casing of a character, as the `i` regex flag applies it. -/
def lowerChar (c : Char) : Char :=
  if 'A' ≤ c && c ≤ 'Z' then Char.ofNat (c.toNat + 32) else c

/-- Lower-cased character list of a string (for case-insensitive matching). -/
def lowerList (s : String) : List Char := s.toList.map lowerChar

/-- Number of fields of JS `text.split(/\s+/)`: one more than the number of
maximal whitespace runs (and 1 for the empty string). -/
def jsSplitWsCount (s : String) : Nat :=
  go s.toList false + 1
where
  /-- Count maximal whitespace runs; `inWs` records whether the previous
  character was whitespace. -/
  go : List Char → Bool → Nat
    | [], _ => 0
    | c :: cs, inWs =>
      if jsWs c then (if inWs then go cs true else go cs true + 1)
      else go cs false

/-! ## Regex tokens for the fixed keyword patterns

Every keyword regex of the classifier is an alternation of simple sequences
built from literal characters, `\s*`, `\s+`, `.` and a trailing `\w+`.
`matchEnds toks cs` computes every suffix of `cs` that can remain after the
token sequence has matched a prefix of `cs`. -/

inductive RTok where
  | lit : Char → RTok
  | wsStar : RTok
  | wsPlus : RTok
  | anyCh : RTok
  | wordPlus : RTok
deriving DecidableEq, Repr

/-- Suffixes obtainable by dropping zero or more leading whitespace chars. -/
def wsSuffixes : List Char → List (List Char)
  | [] => [[]]
  | c :: cs => (c :: cs) :: (if jsWs c then wsSuffixes cs else [])

/-- Suffixes obtainable by dropping zero or more leading word chars. -/
def wordSuffixes : List Char → List (List Char)
  | [] => [[]]
  | c :: cs => (c :: cs) :: (if jsWordChar c then wordSuffixes cs else [])

/-- All suffixes remaining after the token list matches a prefix of `cs`. -/
def matchEnds : List RTok → List Char → List (List Char)
  | [], cs => [cs]
  | RTok.lit _ :: _, [] => []
  | RTok.lit c :: ts, x :: cs => if x = c then matchEnds ts cs else []
  | RTok.wsStar :: ts, cs => (wsSuffixes cs).flatMap (matchEnds ts)
  | RTok.wsPlus :: _, [] => []
  | RTok.wsPlus :: ts, x :: cs =>
      if jsWs x then (wsSuffixes cs).flatMap (matchEnds ts) else []
  | RTok.anyCh :: _, [] => []
  | RTok.anyCh :: ts, x :: cs => if jsLineTerm x then [] else matchEnds ts cs
  | RTok.wordPlus :: _, [] => []
  | RTok.wordPlus :: ts, x :: cs =>
      if jsWordChar x then (wordSuffixes cs).flatMap (matchEnds ts) else []

/-- Word boundary `\b` before a match whose first character is a word
character: holds at the start of the text or after a non-word character. -/
def boundaryBefore : Option Char → Bool
  | none => true
  | some p => !jsWordChar p

/-- Word boundary `\b` after a match whose last character is a word
character: holds at the end of the text or before a non-word character. -/
def boundaryAfter : List Char → Bool
  | [] => true
  | c :: _ => !jsWordChar c

/-- Scan all start positions: does some alternative match at some position,
with a `\b` before it and (when `trailB`) a `\b` after it?  Every alternative
used in the source starts and ends with a word character, so the boundary
conditions take the forms above. -/
def kwHere (alts : List (List RTok)) (trailB : Bool) (prev : Option Char)
    (cs : List Char) : Bool :=
  boundaryBefore prev &&
    alts.any fun alt =>
      (matchEnds alt cs).any fun rest => !trailB || boundaryAfter rest

/-- Scan continuation of `kwHere` over every start position. -/
def kwScan (alts : List (List RTok)) (trailB : Bool) :
    Option Char → List Char → Bool
  | prev, [] => kwHere alts trailB prev []
  | prev, c :: cs' =>
    kwHere alts trailB prev (c :: cs') || kwScan alts trailB (some c) cs'

/-- Test of a case-insensitive keyword regex `\b(alt|…)\b` (trailing `\b`
present iff `trailB`) against a text. -/
def kwTest (alts : List (List RTok)) (trailB : Bool) (text : String) : Bool :=
  kwScan alts trailB none (lowerList text)

/-- Literal-character token sequence for a (lower-case) keyword. -/
def lits (s : String) : List RTok := s.toList.map RTok.lit

/-- Tail `\s*[.!?]?\s*$` of the anchored confirmation/greeting regexes. -/
def anchoredTail (cs : List Char) : Bool :=
  match cs.dropWhile jsWs with
  | [] => true
  | p :: rest =>
    (p = '.' || p = '!' || p = '?') && (rest.dropWhile jsWs).isEmpty

/-- Test of an anchored regex `^(w|…)\s*[.!?]?\s*$` (case-insensitive). -/
def anchoredTest (words : List String) (text : String) : Bool :=
  let cs := lowerList text
  words.any fun w =>
    (cs.take w.length == w.toList) && anchoredTail (cs.drop w.length)

/-! ## Data model -/

/-- A `{ provider, id }` model reference from the configuration. -/
structure ModelRef where
  provider : String
  id : String
deriving DecidableEq, Repr

/-- A resolved model object; the router only reads `provider` and `id`. -/
structure Model where
  provider : String
  id : String
deriving DecidableEq, Repr

/-- A compiled force pattern: its `source` string and its `test` function
(the behaviour of the JS `RegExp` object is abstract). -/
structure RegexPat where
  source : String
  test : String → Bool

/-- One element of an array-valued message `content`; `ctype` is the JS
`type` field ("text", "toolCall", "toolResult", …). -/
structure ContentPart where
  ctype : String
  text : String := ""
deriving DecidableEq, Repr

/-- Message content: a plain string or an array of parts. -/
inductive MsgContent where
  | str : String → MsgContent
  | parts : List ContentPart → MsgContent
deriving DecidableEq, Repr

/-- A conversation message. -/
structure Message where
  role : String
  content : MsgContent
  provider : Option String := none
  model : Option String := none
deriving DecidableEq, Repr

/-- JSON values, for tool parameter schemas. -/
inductive Json where
  | str : String → Json
  | arr : List Json → Json
  | obj : List (String × Json) → Json

/-- A tool object.  `fname` models the JS `tool.function?.name` fallback
path and `execute` is the opaque callback (an abstract token). -/
structure Tool where
  name : Option String := none
  fname : Option String := none
  description : Option String := none
  parameters : Option Json := none
  inputSchema : Option Json := none
  execute : Option Nat := none

/-- The LLM context handed to the router on each call. -/
structure Context where
  messages : List Message
  tools : List Tool := []
  systemPrompt : String := ""

/-- Resolved `routing` sub-config.  Invalid force patterns are kept as
`none` entries (the JS lists hold `null` there). -/
structure RoutingCfg where
  complexityThreshold : Rat := 0.5
  toolCallsPreferLocal : Bool := true
  maxLocalResponseTokens : Nat := 500
  forceCloudPatterns : List (Option RegexPat) := []
  forceLocalPatterns : List (Option RegexPat) := []

/-- Resolved `fallback` sub-config. -/
structure FallbackCfg where
  onCloudUnavailable : String := "local-text"
  onLocalError : String := "cloud"

/-- The resolved hybrid-router configuration. -/
structure RouterCfg where
  enabled : Bool := true
  preference : String := "prefer-local"
  localModel : ModelRef := ⟨"ollama", "functiongemma"⟩
  localTextModel : Option ModelRef := none
  cloudModel : Option ModelRef := none
  routing : RoutingCfg := {}
  fallback : FallbackCfg := {}

/-- The three resolved model objects of the wrapper.  `localM` embeds the
JS field `models.local` (`local` is a Lean keyword). -/
structure Models where
  localM : Option Model := none
  localText : Option Model := none
  cloud : Option Model := none

/-- Classifier output. -/
structure Classification where
  score : Rat
  reason : String
  tags : List String
deriving Repr

/-- Routing decision. -/
structure Decision where
  target : String
  model : Option Model
  reason : String
  score : Rat
  tags : List String
deriving Repr

/-! ## Message helpers -/

/-- Text of an array-valued content: the `text` parts joined by spaces. -/
def partsText (ps : List ContentPart) : String :=
  String.intercalate " " ((ps.filter (·.ctype = "text")).map (·.text))

/-- Walk from the end of the list (the reversed list from its head). -/
def lastUserTextGo : List Message → String
  | [] => ""
  | m :: rest =>
    if m.role = "user" then
      match m.content with
      | .str s => s
      | .parts ps => partsText ps
    else lastUserTextGo rest

/-- `lastUserText`: text of the most recent `user` message, `""` if none. -/
def lastUserText (messages : List Message) : String :=
  lastUserTextGo messages.reverse

/-- `isPostToolTurn`: the last message exists and has role `toolResult`. -/
def isPostToolTurn (messages : List Message) : Bool :=
  match messages.getLast? with
  | none => false
  | some m => m.role = "toolResult"

/-- Number of `toolCall` parts of an assistant message (0 otherwise). -/
def msgToolCalls (m : Message) : Nat :=
  if m.role = "assistant" then
    match m.content with
    | .str _ => 0
    | .parts ps => (ps.filter (·.ctype = "toolCall")).length
  else 0

/-- `recentToolCallCount`: `toolCall` parts in the last `lookback` messages. -/
def recentToolCallCount (messages : List Message) (lookback : Nat := 10) : Nat :=
  ((messages.drop (messages.length - lookback)).map msgToolCalls).sum

/-! ## The fixed keyword tables -/

/-- One row of `COMPLEX_KEYWORDS` / `SIMPLE_KEYWORDS`: the compiled regex is
an executable test, with its weight and tag. -/
structure KwEntry where
  test : String → Bool
  w : Rat
  tag : String

/-- `/\b(write|generate|compose)\s+\w+/i` alternatives. -/
def genAlt (s : String) : List RTok := lits s ++ [RTok.wsPlus, RTok.wordPlus]

/-- `COMPLEX_KEYWORDS` of the source, in order. -/
def COMPLEX_KEYWORDS : List KwEntry := [
  ⟨kwTest [lits "explain", lits "describe", lits "elaborate"] true,
    0.15, "explanation"⟩,
  ⟨kwTest [lits "implement", lits "create", lits "build", lits "develop"] true,
    0.20, "implementation"⟩,
  ⟨kwTest [lits "refactor", lits "optimize", lits "improve",
    lits "restructure"] true, 0.20, "refactoring"⟩,
  ⟨kwTest [lits "debug", lits "fix", lits "solve", lits "troubleshoot"] true,
    0.15, "debugging"⟩,
  ⟨kwTest [lits "analyze", lits "compare", lits "evaluate", lits "review"] true,
    0.15, "analysis"⟩,
  ⟨kwTest [lits "why", lits "how does", lits "what causes"] true,
    0.10, "reasoning"⟩,
  ⟨kwTest [lits "step by step", lits "in detail", lits "thoroughly"] true,
    0.15, "detail-request"⟩,
  ⟨kwTest [genAlt "write", genAlt "generate", genAlt "compose"] false,
    0.15, "generation"⟩,
  ⟨kwTest [lits "find", lits "search",
    lits "look" ++ [RTok.wsStar] ++ lits "up", lits "google",
    lits "browse"] true, 0.35, "search"⟩,
  ⟨kwTest [lits "recommend", lits "suggest", lits "best", lits "top",
    lits "highest" ++ [RTok.anyCh] ++ lits "rated"] true,
    0.30, "recommendation"⟩,
  ⟨kwTest [lits "latest", lits "recent", lits "current", lits "today",
    lits "news", lits "price"] true, 0.30, "real-time"⟩,
  ⟨kwTest [lits "buy", lits "purchase", lits "order", lits "shop",
    lits "deal", lits "discount"] true, 0.25, "shopping"⟩,
  ⟨kwTest [lits "summarize", lits "plan", lits "design", lits "architect"] true,
    0.20, "planning"⟩,
  ⟨kwTest [lits "help me", lits "assist", lits "guide"] true,
    0.10, "assistance"⟩]

/-- Alternatives of `/\b(read|cat|show|display|print)\s+(the\s+)?(file|content)/i`:
each verb, with and without the optional `the\s+` group, each noun. -/
def fileReadAlts : List (List RTok) :=
  (["read", "cat", "show", "display", "print"].flatMap fun v =>
    ["file", "content"].flatMap fun n =>
      [lits v ++ [RTok.wsPlus] ++ lits n,
       lits v ++ [RTok.wsPlus] ++ lits "the" ++ [RTok.wsPlus] ++ lits n])

/-- `SIMPLE_KEYWORDS` of the source, in order (negative weights). -/
def SIMPLE_KEYWORDS : List KwEntry := [
  ⟨kwTest fileReadAlts false, -0.25, "file-read"⟩,
  ⟨kwTest [lits "list", lits "ls", lits "dir"] true, -0.20, "directory"⟩,
  ⟨kwTest [lits "run", lits "execute", lits "exec"] true, -0.10, "command"⟩,
  ⟨anchoredTest ["yes", "no", "ok", "okay", "sure", "confirm", "yep", "nah"],
    -0.35, "confirmation"⟩,
  ⟨anchoredTest ["hello", "hi", "hey", "thanks", "thank you"],
    -0.30, "greeting"⟩]

/-! ## Complexity classification -/

/-- First non-null pattern in the list whose test accepts the text
(the `for … if (rx && rx.test(text))` loops of the source). -/
def firstMatch : List (Option RegexPat) → String → Option RegexPat
  | [], _ => none
  | none :: rest, t => firstMatch rest t
  | some rx :: rest, t => if rx.test t then some rx else firstMatch rest t

/-- Keyword loop: add each matching entry's weight and push its tag. -/
def kwFold (entries : List KwEntry) (text : String) :
    Rat × List String → Rat × List String
  | (score, tags) =>
    entries.foldl
      (fun a e => if e.test text then (a.1 + e.w, a.2 ++ [e.tag]) else a)
      (score, tags)

/-- `Math.min` of two scores (kernel-reducible). -/
def jsMin (a b : Rat) : Rat := if a ≤ b then a else b

/-- `Math.max` of two scores (kernel-reducible). -/
def jsMax (a b : Rat) : Rat := if a ≤ b then b else a

/-- Tags excluded from the genuine-complexity count. -/
def nonComplexTag (t : String) : Bool :=
  t = "long-prompt" || t = "very-long-prompt" ||
  t = "file-read" || t = "directory" || t = "command" ||
  t = "confirmation" || t = "greeting" || t = "tool-heavy-ctx"

/-- `classifyComplexity(context, routingCfg)` of the source. -/
def classifyComplexity (context : Context) (routingCfg : RoutingCfg) :
    Classification :=
  let messages := context.messages
  let text := lastUserText messages
  match firstMatch routingCfg.forceCloudPatterns text with
  | some rx => ⟨1, "force-cloud", [rx.source]⟩
  | none =>
  match firstMatch routingCfg.forceLocalPatterns text with
  | some rx => ⟨0, "force-local", [rx.source]⟩
  | none =>
  if isPostToolTurn messages then ⟨0, "post-tool-turn", ["post-tool"]⟩
  else
    let words := jsSplitWsCount text
    let st1 : Rat × List String :=
      if words > 100 then (0 + 0.15, [] ++ ["long-prompt"]) else (0, [])
    let st2 :=
      if words > 300 then (st1.1 + 0.15, st1.2 ++ ["very-long-prompt"]) else st1
    let st3 := kwFold COMPLEX_KEYWORDS text st2
    let st4 := kwFold SIMPLE_KEYWORDS text st3
    let complexTagCount := (st4.2.filter (fun t => !nonComplexTag t)).length
    let st5 :=
      if complexTagCount ≥ 2 then (st4.1 + 0.15, st4.2 ++ ["multi-signal"])
      else st4
    let st6 :=
      if words > 12 && complexTagCount ≥ 1 then
        (st5.1 + 0.10, st5.2 ++ ["detailed-query"])
      else st5
    let st7 :=
      if recentToolCallCount messages > 3 then
        (st6.1 - 0.10, st6.2 ++ ["tool-heavy-ctx"])
      else st6
    ⟨jsMax 0 (jsMin 1 st7.1), "heuristic", st7.2⟩

/-! ## Cloud API key detection -/

/-- A `auth.profiles` entry of the top-level config. -/
structure AuthProfile where
  apiKey : Option String := none
  mode : Option String := none

/-- An entry of the agent-level `auth-profiles.json`; `ptype` embeds the JS
field `type` (a Lean keyword). -/
structure AgentAuthProfile where
  token : Option String := none
  apiKey : Option String := none
  ptype : Option String := none

/-- The external credential state read by `hasCloudApiKey`: config auth
profiles, the optional agent `auth-profiles.json` (`none` when the file is
missing or unreadable), and the process environment. -/
structure CredEnv where
  authProfiles : List (String × AuthProfile) := []
  agentAuthProfiles : Option (List (String × AgentAuthProfile)) := none
  envVars : List (String × String) := []

/-- Environment lookup; the empty string is falsy, like an unset variable. -/
def envLookup (env : List (String × String)) (k : String) : Option String :=
  (env.find? (·.1 = k)).map (·.2)

/-- `ENV_KEY_MAP` of the source. -/
def ENV_KEY_MAP (p : String) : Option String :=
  if p = "anthropic" then some "ANTHROPIC_API_KEY"
  else if p = "openai" then some "OPENAI_API_KEY"
  else if p = "google" then some "GOOGLE_API_KEY"
  else if p = "openrouter" then some "OPENROUTER_API_KEY"
  else if p = "groq" then some "GROQ_API_KEY"
  else if p = "xai" then some "XAI_API_KEY"
  else if p = "mistral" then some "MISTRAL_API_KEY"
  else none

/-- `hasCloudApiKey(cloudModelRef, cfg, agentDir)` of the source. -/
def hasCloudApiKey (cloudModelRef : Option ModelRef) (cred : CredEnv) : Bool :=
  match cloudModelRef with
  | none => false
  | some ref =>
    let p := ref.provider
    if cred.authProfiles.any (fun kp =>
        kp.1.startsWith p && (strTruthy kp.2.apiKey || kp.2.mode == some "token"))
    then true
    else if (match cred.agentAuthProfiles with
      | some l => l.any (fun kp =>
          kp.1.startsWith p &&
            (strTruthy kp.2.token || strTruthy kp.2.apiKey ||
             kp.2.ptype == some "oauth"))
      | none => false)
    then true
    else if (match ENV_KEY_MAP p with
      | some v => strTruthy (envLookup cred.envVars v)
      | none => false)
    then true
    else if p == "anthropic" &&
        strTruthy (envLookup cred.envVars "ANTHROPIC_OAUTH_TOKEN")
    then true
    else false

/-! ## Routing decision -/

/-- `pick` of the source. -/
def pick (target : String) (model : Option Model) (reason : String)
    (score : Rat) (tags : List String) : Decision :=
  ⟨target, model, reason, score, tags⟩

/-- `CLOUD_REQUIRED_TAGS` of the source. -/
def CLOUD_REQUIRED_TAGS : List String :=
  ["search", "recommendation", "real-time", "shopping"]

/-- `makeRoutingDecision(context, routerCfg, models, cfg, agentDir)`. -/
def makeRoutingDecision (context : Context) (routerCfg : RouterCfg)
    (models : Models) (cred : CredEnv) : Decision :=
  let c := classifyComplexity context routerCfg.routing
  let pref := routerCfg.preference
  let threshold := routerCfg.routing.complexityThreshold
  let cloudAvailable :=
    models.cloud.isSome && hasCloudApiKey routerCfg.cloudModel cred
  if pref = "local-only" then
    pick "local" models.localM "pref:local-only" c.score c.tags
  else if pref = "cloud-only" then
    if cloudAvailable then
      pick "cloud" models.cloud "pref:cloud-only" c.score c.tags
    else
      pick "local" models.localM "pref:cloud-only-no-key" c.score c.tags
  else if c.reason = "force-cloud" then
    if cloudAvailable then pick "cloud" models.cloud c.reason c.score c.tags
    else
      pick "local-text" (models.localText.or models.localM)
        "force-cloud-no-key" c.score c.tags
  else if c.reason = "force-local" || c.reason = "post-tool-turn" then
    pick "local" models.localM c.reason c.score c.tags
  else
    let needsCloud := c.tags.any (CLOUD_REQUIRED_TAGS.contains ·)
    if needsCloud && cloudAvailable && pref ≠ "local-only" then
      pick "cloud" models.cloud "cloud-capability" c.score c.tags
    else if c.score ≥ threshold then
      if pref = "prefer-local" then
        if c.score < 0.7 && models.localText.isSome then
          pick "local-text" models.localText "prefer-local+moderate"
            c.score c.tags
        else if cloudAvailable then
          pick "cloud" models.cloud "prefer-local+high" c.score c.tags
        else
          pick "local-text" (models.localText.or models.localM)
            "prefer-local+high-no-key" c.score c.tags
      else
        if cloudAvailable then
          pick "cloud" models.cloud "complex+cloud" c.score c.tags
        else
          pick "local-text" (models.localText.or models.localM)
            "complex+no-key" c.score c.tags
    else
      let isToolLike := c.tags.any fun t =>
        t = "file-read" || t = "directory" || t = "command" ||
        t = "tool-heavy-ctx" || t = "post-tool" || t = "confirmation"
      if isToolLike then
        pick "local" models.localM "tool-prefer-local" c.score c.tags
      else if pref = "prefer-cloud" && cloudAvailable then
        pick "cloud" models.cloud "simple+prefer-cloud" c.score c.tags
      else if models.localText.isSome then
        pick "local-text" models.localText "simple+text" c.score c.tags
      else
        pick "local" models.localM "simple+local" c.score c.tags

/-! ## Config resolution -/

/-- Raw `routing` block of the configuration file. -/
structure RawRouting where
  complexityThreshold : Option Rat := none
  toolCallsPreferLocal : Option Bool := none
  maxLocalResponseTokens : Option Nat := none
  forceCloudPatterns : Option (List String) := none
  forceLocalPatterns : Option (List String) := none

/-- Raw `fallback` block of the configuration file. -/
structure RawFallback where
  onCloudUnavailable : Option String := none
  onLocalError : Option String := none

/-- Raw `agents.defaults.hybridRouter` block of the configuration file. -/
structure RawHybridRouter where
  enabled : Option Bool := none
  preference : Option String := none
  localModel : Option ModelRef := none
  localTextModel : Option ModelRef := none
  cloudModel : Option ModelRef := none
  routing : Option RawRouting := none
  fallback : Option RawFallback := none

/-- `safeRegex(pattern)`: compile a pattern, `null` on invalid ones.  The
external `new RegExp(pattern, "i")` constructor is the abstract `compile`
argument; a `none` result embeds the caught compile exception. -/
def safeRegex (compile : String → Option RegexPat) (pattern : String) :
    Option RegexPat :=
  match compile pattern with
  | some rx => some rx
  | none => none

/-- `resolveHybridRouterConfig(cfg)`: `none` when disabled or missing,
otherwise the config with all defaults applied and patterns compiled. -/
def resolveHybridRouterConfig (compile : String → Option RegexPat)
    (rc : Option RawHybridRouter) : Option RouterCfg :=
  match rc with
  | none => none
  | some r =>
    if r.enabled ≠ some true then none
    else some {
      enabled := true
      preference := r.preference.getD "prefer-local"
      localModel := r.localModel.getD ⟨"ollama", "functiongemma"⟩
      localTextModel := r.localTextModel
      cloudModel := r.cloudModel
      routing := {
        complexityThreshold :=
          (r.routing.bind (·.complexityThreshold)).getD 0.5
        toolCallsPreferLocal :=
          (r.routing.bind (·.toolCallsPreferLocal)).getD true
        maxLocalResponseTokens :=
          (r.routing.bind (·.maxLocalResponseTokens)).getD 500
        forceCloudPatterns :=
          ((r.routing.bind (·.forceCloudPatterns)).getD []).map
            (safeRegex compile)
        forceLocalPatterns :=
          ((r.routing.bind (·.forceLocalPatterns)).getD []).map
            (safeRegex compile) }
      fallback := {
        onCloudUnavailable :=
          (r.fallback.bind (·.onCloudUnavailable)).getD "local-text"
        onLocalError := (r.fallback.bind (·.onLocalError)).getD "cloud" } }

/-! ## Tool simplification and context adaptation -/

/-- A simplified tool schema entry. -/
structure SimpleToolSchema where
  name : String
  description : String
  parameters : Json

/-- The `read` entry of `SIMPLIFIED_TOOL_SCHEMAS`. -/
def readSchema : SimpleToolSchema :=
  ⟨"read", "Read a file.",
    Json.obj [("type", Json.str "object"),
      ("properties", Json.obj [("path",
        Json.obj [("type", Json.str "string"),
          ("description", Json.str "File path to read")])]),
      ("required", Json.arr [Json.str "path"])]⟩

/-- The `exec` entry of `SIMPLIFIED_TOOL_SCHEMAS`. -/
def execSchema : SimpleToolSchema :=
  ⟨"exec", "Run a shell command (ls, cat, git, date, echo, etc.).",
    Json.obj [("type", Json.str "object"),
      ("properties", Json.obj [("command",
        Json.obj [("type", Json.str "string"),
          ("description", Json.str "Shell command to run")])]),
      ("required", Json.arr [Json.str "command"])]⟩

/-- The `write` entry of `SIMPLIFIED_TOOL_SCHEMAS`. -/
def writeSchema : SimpleToolSchema :=
  ⟨"write", "Write content to a file.",
    Json.obj [("type", Json.str "object"),
      ("properties", Json.obj
        [("path", Json.obj [("type", Json.str "string"),
           ("description", Json.str "File path")]),
         ("content", Json.obj [("type", Json.str "string"),
           ("description", Json.str "File content")])]),
      ("required", Json.arr [Json.str "path", Json.str "content"])]⟩

/-- The `edit` entry of `SIMPLIFIED_TOOL_SCHEMAS`. -/
def editSchema : SimpleToolSchema :=
  ⟨"edit", "Edit a file by replacing text.",
    Json.obj [("type", Json.str "object"),
      ("properties", Json.obj
        [("path", Json.obj [("type", Json.str "string"),
           ("description", Json.str "File path")]),
         ("oldText", Json.obj [("type", Json.str "string"),
           ("description", Json.str "Text to find")]),
         ("newText", Json.obj [("type", Json.str "string"),
           ("description", Json.str "Replacement text")])]),
      ("required",
        Json.arr [Json.str "path", Json.str "oldText", Json.str "newText"])]⟩

/-- `SIMPLIFIED_TOOL_SCHEMAS[name]` lookup. -/
def SIMPLIFIED_TOOL_SCHEMAS (name : String) : Option SimpleToolSchema :=
  if name = "read" then some readSchema
  else if name = "exec" then some execSchema
  else if name = "write" then some writeSchema
  else if name = "edit" then some editSchema
  else none

/-- `tool?.name ?? tool?.function?.name ?? ""`. -/
def toolNameOf (t : Tool) : String :=
  match t.name with
  | some n => n
  | none =>
    match t.fname with
    | some n => n
    | none => ""

/-- Clone a tool and replace only its schema-related fields. -/
def simplifyTool (t : Tool) (s : SimpleToolSchema) : Tool :=
  { t with
    description := some s.description
    parameters := some s.parameters
    inputSchema := some s.parameters }

/-- The loop of `simplifyToolsForLocalModel`, carrying the `seen` set. -/
def simplifyGo : List Tool → List String → List Tool
  | [], _ => []
  | t :: ts, seen =>
    let n := toolNameOf t
    match SIMPLIFIED_TOOL_SCHEMAS n with
    | some s =>
      if n ∈ seen then simplifyGo ts seen
      else simplifyTool t s :: simplifyGo ts (n :: seen)
    | none => simplifyGo ts seen

/-- `simplifyToolsForLocalModel(tools)` of the source. -/
def simplifyToolsForLocalModel (tools : List Tool) : List Tool :=
  simplifyGo tools []

/-- Per-target context adaptation of the wrapped call (the
`if (decision.target === …)` block of `wrapStreamFn`); `cloud` and any
other target passes the context through unchanged. -/
def adaptContext (toolPrompt textPrompt : String) (context : Context)
    (target : String) : Context :=
  if target = "local-text" then
    { context with tools := [], systemPrompt := textPrompt }
  else if target = "local" then
    { context with
      tools := simplifyToolsForLocalModel context.tools
      systemPrompt := toolPrompt }
  else context

/-! ## The wrapped stream call -/

/-- The options bag; only `apiKey` is touched by the router. -/
structure CallOptions where
  apiKey : Option String := none
  rest : Nat := 0

/-- Arguments the wrapped function passes to the underlying `streamFn`:
the decision's model (falling back to the incoming `model`), the adapted
context, and the options with the resolved key merged in on a provider
switch.  `resolvedKey` abstracts the cached/awaited credential lookup
result (`none` embeds a falsy or failed resolution). -/
def wrappedCallArgs (routerCfg : RouterCfg) (models : Models) (cred : CredEnv)
    (toolPrompt textPrompt : String) (model : Model) (context : Context)
    (options : CallOptions) (resolvedKey : Option String) :
    Model × Context × CallOptions :=
  let decision := makeRoutingDecision context routerCfg models cred
  let effectiveModel := decision.model.getD model
  let effectiveOptions :=
    if effectiveModel.provider ≠ model.provider then
      match resolvedKey with
      | some apiKey => { options with apiKey := some apiKey }
      | none => options
    else options
  let effectiveContext := adaptContext toolPrompt textPrompt context
    decision.target
  (effectiveModel, effectiveContext, effectiveOptions)

/-! ## Identity preamble -/

/-- JS `String.prototype.trim` on a character list. -/
def jsTrimList (cs : List Char) : List Char :=
  ((cs.dropWhile jsWs).reverse.dropWhile jsWs).reverse

/-- JS `.trim()` of a string. -/
def jsTrim (s : String) : String := (jsTrimList s.toList).asString

/-- `replace(/\.+$/, "")`: strip a trailing run of dots. -/
def stripTrailingDots (s : String) : String :=
  ((s.toList.reverse.dropWhile (· = '.')).reverse).asString

/-- The suffix after the first occurrence of `pat` in `cs`, if any. -/
def afterFirst (pat : List Char) : List Char → Option (List Char)
  | [] => if pat.isEmpty then some [] else none
  | c :: cs =>
    if (c :: cs).take pat.length == pat then some ((c :: cs).drop pat.length)
    else afterFirst pat cs

/-- The group captured by `\s*(.+)` right after a label occurrence, matched
with the backtracking of the JS engine: the greedy whitespace skip backs off
until `.+` can take at least one non-line-terminator character, and `.+`
then runs to the next line terminator or the end. -/
def matchAfterLabel (rest : List Char) : Option (List Char) :=
  let pre := rest.takeWhile jsWs
  let after := rest.dropWhile jsWs
  match after with
  | c :: cs => some ((c :: cs).takeWhile (fun x => !jsLineTerm x))
  | [] =>
    match pre.reverse.dropWhile jsLineTerm with
    | [] => none
    | c :: _ => some [c]

/-- `content.match(/\*\*Label:\*\*\s*(.+)/)?.[1].trim()`: the source's
bolded-label extraction.  The first occurrence of the literal label is the
one the regex matches at (when it fails there, the remainder holds only
line terminators, so no later occurrence exists either). -/
def extractLabel (label : String) (content : String) : Option String :=
  match afterFirst ("**" ++ label ++ ":**").toList content.toList with
  | none => none
  | some rest => (matchAfterLabel rest).map (fun cs => jsTrim cs.asString)

/-- Bodies of the global matches of `/\*\*([^*]+)\*\*/g`, scanned left to
right without overlap; `fuel` bounds the scan (each step consumes at least
one character, so `cs.length` suffices). -/
def scanBoldAux : Nat → List Char → List String
  | 0, _ => []
  | _ + 1, [] => []
  | fuel + 1, '*' :: '*' :: rest =>
    let body := rest.takeWhile (· ≠ '*')
    let after := rest.dropWhile (· ≠ '*')
    match body, after with
    | [], _ => scanBoldAux fuel ('*' :: rest)
    | _, '*' :: '*' :: tail => body.asString :: scanBoldAux fuel tail
    | _, _ => scanBoldAux fuel ('*' :: rest)
  | fuel + 1, _ :: rest => scanBoldAux fuel rest

/-- All `**…**` directive bodies of a SOUL.md content. -/
def scanBold (s : String) : List String := scanBoldAux s.toList.length s.toList

/-- JS `Array.prototype.join(sep)` on a list of strings. -/
def jsJoin (sep : String) : List String → String
  | [] => ""
  | [a] => a
  | a :: b :: rest => a ++ sep ++ jsJoin sep (b :: rest)

/-- The three optional workspace files read at wrapper construction; a
`none` file embeds the caught `readFileSync` failure. -/
structure WorkspaceFiles where
  identityMd : Option String := none
  soulMd : Option String := none
  userMd : Option String := none

/-- `buildIdentityPreamble(workspaceDir)` of the source; `none` embeds a
falsy `workspaceDir`. -/
def buildIdentityPreamble : Option WorkspaceFiles → String
  | none => "You are a helpful assistant."
  | some w =>
    let name := w.identityMd.bind (extractLabel "Name")
    let fullName := w.identityMd.bind (extractLabel "Full Name")
    let vibe := w.identityMd.bind (extractLabel "Vibe")
    let soulBits :=
      match w.soulMd with
      | none => []
      | some soul =>
        ((((scanBold soul).map
          (fun d => stripTrailingDots (jsTrim d))).filter
          (fun d => d.length < 80)).take 4)
    let userName :=
      match w.userMd with
      | none => none
      | some u =>
        match extractLabel "What to call them" u with
        | some c => some c
        | none => extractLabel "Name" u
    let p1 :=
      if strTruthy name && strTruthy fullName then
        "You are " ++ name.getD "" ++ " (" ++ fullName.getD "" ++
          "), a helpful AI assistant."
      else if strTruthy name then
        "You are " ++ name.getD "" ++ ", a helpful AI assistant."
      else "You are a helpful AI assistant."
    let parts := [p1] ++
      (if strTruthy userName then
        ["You are assisting " ++ userName.getD "" ++ "."] else []) ++
      (if strTruthy vibe then ["Your vibe: " ++ vibe.getD ""] else []) ++
      (if soulBits.isEmpty then []
       else [jsJoin ". " soulBits ++ "."]) ++
      ["Never say you are Gemma, LLaMA, or any other model. You are only " ++
        (if strTruthy name then name.getD "" else "this assistant") ++ "."]
    jsJoin " " parts

/-! ## Shared lemmas -/

/-- The decision's score is the classifier's score, in every branch. -/
theorem decision_score_eq (context : Context) (routerCfg : RouterCfg)
    (models : Models) (cred : CredEnv) :
    (makeRoutingDecision context routerCfg models cred).score =
      (classifyComplexity context routerCfg.routing).score := by
  unfold makeRoutingDecision pick
  dsimp only
  repeat' split
  all_goals rfl

/-- The clamp `Math.max(0, Math.min(1, x))` is nonnegative. -/
theorem clamp01_nonneg (x : Rat) : 0 ≤ jsMax 0 (jsMin 1 x) := by
  unfold jsMax jsMin
  split_ifs <;> linarith

/-- The clamp `Math.max(0, Math.min(1, x))` is at most one. -/
theorem clamp01_le_one (x : Rat) : jsMax 0 (jsMin 1 x) ≤ 1 := by
  unfold jsMax jsMin
  split_ifs <;> linarith

/-- The clamp keeps a value below any cutoff in `(0, 1]`. -/
theorem clamp01_lt (x c : Rat) (h0 : 0 < c) (hc1 : c ≤ 1) (hx : x < c) :
    jsMax 0 (jsMin 1 x) < c := by
  unfold jsMax jsMin
  split_ifs <;> linarith

/-- The classifier's score is in `[0, 1]` in every branch. -/
theorem classify_score_bounds (context : Context) (routingCfg : RoutingCfg) :
    0 ≤ (classifyComplexity context routingCfg).score ∧
      (classifyComplexity context routingCfg).score ≤ 1 := by
  unfold classifyComplexity
  dsimp only
  split
  · exact ⟨by norm_num, by norm_num⟩
  · split
    · exact ⟨le_refl 0, by norm_num⟩
    · split
      · exact ⟨le_refl 0, by norm_num⟩
      · exact ⟨clamp01_nonneg _, clamp01_le_one _⟩

/-- A matching pattern in the list forces `firstMatch` to succeed. -/
theorem firstMatch_isSome (l : List (Option RegexPat)) (t : String)
    (h : ∃ rx, some rx ∈ l ∧ rx.test t = true) :
    ∃ rx, firstMatch l t = some rx := by
  induction l with
  | nil => obtain ⟨rx, hm, _⟩ := h; simp at hm
  | cons hd tl ih =>
    obtain ⟨rx, hm, ht⟩ := h
    match hd with
    | none =>
      simp only [List.mem_cons, reduceCtorEq, false_or] at hm
      exact ih ⟨rx, hm, ht⟩
    | some rx' =>
      by_cases hcase : rx'.test t = true
      · exact ⟨rx', by simp [firstMatch, hcase]⟩
      · rcases List.mem_cons.mp hm with heq | hmem
        · cases heq; exact absurd ht hcase
        · obtain ⟨rx'', h''⟩ := ih ⟨rx, hmem, ht⟩
          exact ⟨rx'', by simp [firstMatch, hcase, h'']⟩

/-- When a force-cloud pattern matches the last user text, the classifier
short-circuits with score 1 and reason `force-cloud`. -/
theorem classify_force_cloud (context : Context) (routingCfg : RoutingCfg)
    (h : ∃ rx, some rx ∈ routingCfg.forceCloudPatterns ∧
      rx.test (lastUserText context.messages) = true) :
    (classifyComplexity context routingCfg).score = 1 ∧
      (classifyComplexity context routingCfg).reason = "force-cloud" := by
  obtain ⟨rx, hm⟩ := firstMatch_isSome _ _ h
  unfold classifyComplexity
  dsimp only
  rw [hm]
  exact ⟨rfl, rfl⟩

/-- Simplifying a tool changes only schema fields, not its name. -/
theorem toolNameOf_simplifyTool (t : Tool) (s : SimpleToolSchema) :
    toolNameOf (simplifyTool t s) = toolNameOf t := rfl

/-- Replacing the schema fields twice is the same as once. -/
theorem simplifyTool_idem (t : Tool) (s : SimpleToolSchema) :
    simplifyTool (simplifyTool t s) s = simplifyTool t s := rfl

/-- Loop step: a tool outside the simplified table is dropped. -/
theorem simplifyGo_cons_none (t : Tool) (ts : List Tool) (seen : List String)
    (hs : SIMPLIFIED_TOOL_SCHEMAS (toolNameOf t) = none) :
    simplifyGo (t :: ts) seen = simplifyGo ts seen := by
  show (match SIMPLIFIED_TOOL_SCHEMAS (toolNameOf t) with
    | some s =>
      if toolNameOf t ∈ seen then simplifyGo ts seen
      else simplifyTool t s :: simplifyGo ts (toolNameOf t :: seen)
    | none => simplifyGo ts seen) = simplifyGo ts seen
  rw [hs]

/-- Loop step: a tool whose name was already seen is dropped. -/
theorem simplifyGo_cons_mem (t : Tool) (ts : List Tool) (seen : List String)
    (s : SimpleToolSchema) (hs : SIMPLIFIED_TOOL_SCHEMAS (toolNameOf t) = some s)
    (hm : toolNameOf t ∈ seen) :
    simplifyGo (t :: ts) seen = simplifyGo ts seen := by
  show (match SIMPLIFIED_TOOL_SCHEMAS (toolNameOf t) with
    | some s =>
      if toolNameOf t ∈ seen then simplifyGo ts seen
      else simplifyTool t s :: simplifyGo ts (toolNameOf t :: seen)
    | none => simplifyGo ts seen) = simplifyGo ts seen
  rw [hs]
  exact if_pos hm

/-- Loop step: a fresh tool of the table is simplified and marked seen. -/
theorem simplifyGo_cons_new (t : Tool) (ts : List Tool) (seen : List String)
    (s : SimpleToolSchema) (hs : SIMPLIFIED_TOOL_SCHEMAS (toolNameOf t) = some s)
    (hm : toolNameOf t ∉ seen) :
    simplifyGo (t :: ts) seen =
      simplifyTool t s :: simplifyGo ts (toolNameOf t :: seen) := by
  show (match SIMPLIFIED_TOOL_SCHEMAS (toolNameOf t) with
    | some s =>
      if toolNameOf t ∈ seen then simplifyGo ts seen
      else simplifyTool t s :: simplifyGo ts (toolNameOf t :: seen)
    | none => simplifyGo ts seen) =
      simplifyTool t s :: simplifyGo ts (toolNameOf t :: seen)
  rw [hs]
  exact if_neg hm

/-- Running the simplification loop over its own output (with the same
`seen` set) reproduces the output. -/
theorem simplifyGo_idem (ts : List Tool) (seen : List String) :
    simplifyGo (simplifyGo ts seen) seen = simplifyGo ts seen := by
  induction ts generalizing seen with
  | nil => rfl
  | cons t ts ih =>
    rcases hs : SIMPLIFIED_TOOL_SCHEMAS (toolNameOf t) with _ | s
    · rw [simplifyGo_cons_none t ts seen hs]
      exact ih seen
    · by_cases hm : toolNameOf t ∈ seen
      · rw [simplifyGo_cons_mem t ts seen s hs hm]
        exact ih seen
      · rw [simplifyGo_cons_new t ts seen s hs hm,
          simplifyGo_cons_new (simplifyTool t s) _ seen s
            (by rw [toolNameOf_simplifyTool]; exact hs)
            (by rw [toolNameOf_simplifyTool]; exact hm),
          simplifyTool_idem, toolNameOf_simplifyTool]
        exact congrArg _ (ih (toolNameOf t :: seen))

/-- Dropping the `none` entries of a pattern list does not change which
pattern `firstMatch` finds. -/
theorem firstMatch_reduceOption (l : List (Option RegexPat)) (t : String) :
    firstMatch (l.reduceOption.map some) t = firstMatch l t := by
  induction l with
  | nil => rfl
  | cons hd tl ih =>
    match hd with
    | none => simpa [List.reduceOption_cons_of_none] using ih
    | some rx =>
      simp only [List.reduceOption_cons_of_some, List.map_cons, firstMatch]
      split
      · rfl
      · simpa [List.reduceOption] using ih

/-! ## Concrete fixtures for witnesses and counterexamples -/

/-- Local tool model of the examples. -/
def mLocal : Model := ⟨"ollama", "functiongemma"⟩

/-- Local text model of the examples. -/
def mText : Model := ⟨"ollama", "gemma3:270m"⟩

/-- Cloud model of the examples. -/
def mCloud : Model := ⟨"anthropic", "claude-sonnet-4-5"⟩

/-- All three models resolved. -/
def modelsAll : Models := ⟨some mLocal, some mText, some mCloud⟩

/-- Credentials with an Anthropic API key in the environment. -/
def credKey : CredEnv := { envVars := [("ANTHROPIC_API_KEY", "sk-test")] }

/-- Cloud model reference of the examples. -/
def cloudRef : ModelRef := ⟨"anthropic", "claude-sonnet-4-5"⟩

/-- A context with a single user message. -/
def userCtx (s : String) : Context := ⟨[⟨"user", MsgContent.str s, none, none⟩], [], ""⟩

/-- A force pattern matching every text. -/
def patAll : RegexPat := ⟨"always", fun _ => true⟩

/-! ## Claim theorems -/

/-- C3: for every context and every routing configuration, the score of the
Decision returned by `makeRoutingDecision` — which equals the score returned
by `classifyComplexity` — lies in the closed interval `[0, 1]`. -/
theorem score_in_unit_interval (context : Context) (routerCfg : RouterCfg)
    (models : Models) (cred : CredEnv) :
    0 ≤ (makeRoutingDecision context routerCfg models cred).score ∧
    (makeRoutingDecision context routerCfg models cred).score ≤ 1 ∧
    (makeRoutingDecision context routerCfg models cred).score =
      (classifyComplexity context routerCfg.routing).score := by
  have h := classify_score_bounds context routerCfg.routing
  have he := decision_score_eq context routerCfg models cred
  refine ⟨?_, ?_, he⟩ <;> rw [he]
  · exact h.1
  · exact h.2

/-- C4: when at least one force-cloud pattern and at least one force-local
pattern match the last user text, `classifyComplexity` returns score 1.0
with reason `force-cloud` (the cloud list is evaluated first), never
`force-local`. -/
theorem force_cloud_beats_force_local (context : Context)
    (routingCfg : RoutingCfg)
    (hc : ∃ rx, some rx ∈ routingCfg.forceCloudPatterns ∧
      rx.test (lastUserText context.messages) = true)
    (hl : ∃ rx, some rx ∈ routingCfg.forceLocalPatterns ∧
      rx.test (lastUserText context.messages) = true) :
    (classifyComplexity context routingCfg).score = 1 ∧
    (classifyComplexity context routingCfg).reason = "force-cloud" ∧
    (classifyComplexity context routingCfg).reason ≠ "force-local" := by
  obtain ⟨h1, h2⟩ := classify_force_cloud context routingCfg hc
  refine ⟨h1, h2, ?_⟩
  rw [h2]
  decide

/-- Routing config whose cloud and local force lists both match anything. -/
def rcfgBoth : RoutingCfg :=
  { forceCloudPatterns := [some patAll], forceLocalPatterns := [some patAll] }

/-- C4 witness: a text matching a pattern of both lists classifies as
`force-cloud` with score 1. -/
theorem force_cloud_beats_force_local_witness :
    (classifyComplexity (userCtx "hi there") rcfgBoth).score = 1 ∧
    (classifyComplexity (userCtx "hi there") rcfgBoth).reason = "force-cloud" ∧
    (classifyComplexity (userCtx "hi there") rcfgBoth).reason ≠ "force-local" :=
  force_cloud_beats_force_local (userCtx "hi there") rcfgBoth
    ⟨patAll, by simp [rcfgBoth], rfl⟩ ⟨patAll, by simp [rcfgBoth], rfl⟩

/-- C2 (amended): when a force-cloud pattern matches the last user text,
the cloud model is resolved, a credential is present for its provider, and
the preference is not `local-only`, `makeRoutingDecision` routes to cloud. -/
theorem force_cloud_routes_cloud (context : Context) (routerCfg : RouterCfg)
    (models : Models) (cred : CredEnv)
    (hmatch : ∃ rx, some rx ∈ routerCfg.routing.forceCloudPatterns ∧
      rx.test (lastUserText context.messages) = true)
    (hcm : models.cloud.isSome = true)
    (hkey : hasCloudApiKey routerCfg.cloudModel cred = true)
    (hpref : routerCfg.preference ≠ "local-only") :
    (makeRoutingDecision context routerCfg models cred).target = "cloud" := by
  have hfc := classify_force_cloud context routerCfg.routing hmatch
  have hca : (models.cloud.isSome &&
      hasCloudApiKey routerCfg.cloudModel cred) = true := by
    simp [hcm, hkey]
  unfold makeRoutingDecision
  dsimp only
  rw [if_neg hpref]
  by_cases hco : routerCfg.preference = "cloud-only"
  · rw [if_pos hco, if_pos hca]
    rfl
  · rw [if_neg hco, if_pos hfc.2, if_pos hca]
    rfl

/-- Router config of the C2 witness: prefer-local, force-cloud matches. -/
def cfgC2w : RouterCfg :=
  { preference := "prefer-local", cloudModel := some cloudRef,
    routing := { forceCloudPatterns := [some patAll] } }

/-- C2 witness: a matching force-cloud pattern with cloud available under
`prefer-local` routes to cloud. -/
theorem force_cloud_routes_cloud_witness :
    (makeRoutingDecision (userCtx "go") cfgC2w modelsAll credKey).target =
      "cloud" :=
  force_cloud_routes_cloud (userCtx "go") cfgC2w modelsAll credKey
    ⟨patAll, by simp [cfgC2w], rfl⟩ rfl (by decide) (by decide)

/-- Router config of the C2 counterexample: `local-only` preference with a
force-cloud pattern that matches anything and cloud fully available. -/
def cfgC2x : RouterCfg :=
  { preference := "local-only", cloudModel := some cloudRef,
    routing := { forceCloudPatterns := [some patAll] } }

/-- C2 counterexample: a force-cloud pattern matches and `cloudAvailable`
is true, yet under `local-only` the decision's target is `local`, not
`cloud` — the claim as stated (for every context, so in particular every
preference) fails. -/
theorem force_cloud_local_only_counterexample :
    patAll.test (lastUserText (userCtx "go").messages) = true ∧
    cfgC2x.routing.forceCloudPatterns = [some patAll] ∧
    (modelsAll.cloud.isSome && hasCloudApiKey cfgC2x.cloudModel credKey) =
      true ∧
    (makeRoutingDecision (userCtx "go") cfgC2x modelsAll credKey).target =
      "local" ∧
    (makeRoutingDecision (userCtx "go") cfgC2x modelsAll credKey).target ≠
      "cloud" :=
  ⟨rfl, rfl, by decide, by decide, by decide⟩

/-- C7: context adaptation is idempotent for every target: adapting an
already-adapted context to the same target yields a structurally equal
context. -/
theorem adaptContext_idempotent (toolPrompt textPrompt : String)
    (context : Context) (target : String) :
    adaptContext toolPrompt textPrompt
        (adaptContext toolPrompt textPrompt context target) target =
      adaptContext toolPrompt textPrompt context target := by
  unfold adaptContext
  split_ifs with h1 h2
  · rfl
  · simp only [simplifyToolsForLocalModel]
    congr 1
    exact simplifyGo_idem context.tools []
  · rfl

/-- C8: `none` entries of the compiled force-pattern lists (the invalid
regexes `safeRegex` dropped during config resolution) never affect a
classification: `classifyComplexity` behaves as if they were absent. -/
theorem invalid_patterns_inert (compile : String → Option RegexPat)
    (raw : Option RawHybridRouter) (rc : RouterCfg) (context : Context)
    (h : resolveHybridRouterConfig compile raw = some rc) :
    classifyComplexity context rc.routing =
      classifyComplexity context
        { rc.routing with
          forceCloudPatterns := rc.routing.forceCloudPatterns.reduceOption.map some
          forceLocalPatterns :=
            rc.routing.forceLocalPatterns.reduceOption.map some } := by
  unfold classifyComplexity
  dsimp only
  rw [firstMatch_reduceOption, firstMatch_reduceOption]

/-- Regex compiler of the C8 witness: the pattern `(` fails to compile,
every other pattern matches nothing. -/
def compileW : String → Option RegexPat :=
  fun s => if s = "(" then none else some ⟨s, fun _ => false⟩

/-- Raw config of the C8 witness, with one invalid pattern in each list. -/
def rawW : RawHybridRouter :=
  { enabled := some true,
    routing := some { forceCloudPatterns := some ["(", "x"],
                      forceLocalPatterns := some ["(", "y"] } }

/-- Resolved config of the C8 witness: the invalid entries are `none`. -/
def rcW : RouterCfg :=
  { routing := { forceCloudPatterns := [none, some ⟨"x", fun _ => false⟩],
                 forceLocalPatterns := [none, some ⟨"y", fun _ => false⟩] } }

/-- C8 witness: resolving a config with an invalid pattern succeeds and the
resulting `none` entries do not change the classification. -/
theorem invalid_patterns_inert_witness :
    resolveHybridRouterConfig compileW (some rawW) = some rcW ∧
    classifyComplexity (userCtx "hi") rcW.routing =
      classifyComplexity (userCtx "hi")
        { rcW.routing with
          forceCloudPatterns :=
            rcW.routing.forceCloudPatterns.reduceOption.map some
          forceLocalPatterns :=
            rcW.routing.forceLocalPatterns.reduceOption.map some } :=
  ⟨rfl, invalid_patterns_inert compileW (some rawW) rcW (userCtx "hi") rfl⟩

/-- C10: the model the wrapped stream function delegates to the underlying
`streamFn` is the decision's model when that is non-null and otherwise the
caller's incoming model; with a non-null incoming model the delegated model
is therefore never null (the first component has type `Model`). -/
theorem wrapped_model_is_decision_or_default (routerCfg : RouterCfg)
    (models : Models) (cred : CredEnv) (toolPrompt textPrompt : String)
    (model : Model) (context : Context) (options : CallOptions)
    (resolvedKey : Option String) :
    ((makeRoutingDecision context routerCfg models cred).model = none →
      (wrappedCallArgs routerCfg models cred toolPrompt textPrompt model
        context options resolvedKey).1 = model) ∧
    ∀ dm, (makeRoutingDecision context routerCfg models cred).model = some dm →
      (wrappedCallArgs routerCfg models cred toolPrompt textPrompt model
        context options resolvedKey).1 = dm := by
  unfold wrappedCallArgs
  dsimp only
  constructor
  · intro h
    rw [h]
    rfl
  · intro dm h
    rw [h]
    rfl

/-- The reasons produced by the complex-task branch (step 6). -/
def complexReasons : List String :=
  ["prefer-local+moderate", "prefer-local+high", "prefer-local+high-no-key",
   "complex+cloud", "complex+no-key"]

/-- C5: a context whose classifier score equals `complexityThreshold`
exactly — with no shortcut reason, no cloud-capability tag, and no absolute
preference mode — routes by the complex-task rules of step 6, never by the
simple-task rules: the comparison is `score ≥ threshold`, not `>`. -/
theorem threshold_boundary_inclusive (context : Context)
    (routerCfg : RouterCfg) (models : Models) (cred : CredEnv)
    (hpl : routerCfg.preference ≠ "local-only")
    (hpc : routerCfg.preference ≠ "cloud-only")
    (hr : (classifyComplexity context routerCfg.routing).reason = "heuristic")
    (hnc : ((classifyComplexity context routerCfg.routing).tags.any
      (CLOUD_REQUIRED_TAGS.contains ·)) = false)
    (hs : (classifyComplexity context routerCfg.routing).score =
      routerCfg.routing.complexityThreshold) :
    (makeRoutingDecision context routerCfg models cred).reason ∈
      complexReasons := by
  unfold makeRoutingDecision
  dsimp only
  rw [if_neg hpl, if_neg hpc, hr, hs, hnc]
  simp only [Bool.false_and, Bool.and_eq_true]
  rw [if_neg (by decide : ¬("heuristic" = "force-cloud"))]
  rw [if_neg (by decide :
    ¬((decide ("heuristic" = "force-local") ||
       decide ("heuristic" = "post-tool-turn")) = true))]
  rw [if_neg (by decide : ¬(false = true))]
  rw [if_pos (le_refl routerCfg.routing.complexityThreshold)]
  split_ifs <;> simp [pick, complexReasons]

/-- Context with no messages at all (the classifier sees `""`). -/
def ctxEmpty : Context := ⟨[], [], ""⟩

/-- Config of the C5 witness: threshold 0, so the empty text scores exactly
at the threshold. -/
def rc5 : RouterCfg :=
  { preference := "prefer-cloud", routing := { complexityThreshold := 0 } }

/-- No models resolved. -/
def modelsNone : Models := {}

/-- No credentials anywhere. -/
def credNone : CredEnv := {}

/-- C5 witness: the empty context scores exactly at a zero threshold and is
routed by a step-6 rule. -/
theorem threshold_boundary_inclusive_witness :
    (classifyComplexity ctxEmpty rc5.routing).reason = "heuristic" ∧
    (classifyComplexity ctxEmpty rc5.routing).score =
      rc5.routing.complexityThreshold ∧
    (makeRoutingDecision ctxEmpty rc5 modelsNone credNone).reason ∈
      complexReasons :=
  ⟨by decide, by decide,
    threshold_boundary_inclusive ctxEmpty rc5 modelsNone credNone
      (by decide) (by decide) (by decide) (by decide) (by decide)⟩

/-! ## Inert texts: no word character, no keyword fires -/

/-- An alternative whose first token is a literal word character. -/
def altHeadWord : List RTok → Bool
  | RTok.lit c :: _ => jsWordChar c
  | _ => false

/-- An anchored word starting with a word character. -/
def wordHeadWord (w : String) : Bool :=
  match w.toList with
  | c :: _ => jsWordChar c
  | [] => false

/-- Lower-casing does not introduce word characters. -/
theorem lowerChar_of_not_word (c : Char) (h : jsWordChar c = false) :
    lowerChar c = c := by
  have hB : ('A' ≤ c && c ≤ 'Z') = false := by
    unfold jsWordChar at h
    simp only [Bool.or_eq_false_iff] at h
    exact h.1.1.2
  unfold lowerChar
  rw [hB]
  simp

/-- Characters of the lower-cased list of an inert text are not word
characters. -/
theorem lowerList_not_word (s : String)
    (h : ∀ c ∈ s.toList, jsWordChar c = false) :
    ∀ c ∈ lowerList s, jsWordChar c = false := by
  intro c hc
  unfold lowerList at hc
  obtain ⟨a, ha, rfl⟩ := List.mem_map.mp hc
  rw [lowerChar_of_not_word a (h a ha)]
  exact h a ha

/-- No word-initial alternative matches at the front of a wordless list. -/
theorem kwHere_false (alts : List (List RTok)) (trailB : Bool)
    (prev : Option Char) (cs : List Char)
    (halts : alts.all altHeadWord = true)
    (h : ∀ c ∈ cs, jsWordChar c = false) :
    kwHere alts trailB prev cs = false := by
  unfold kwHere
  have hany : (alts.any fun alt =>
      (matchEnds alt cs).any fun rest => !trailB || boundaryAfter rest) = false := by
    rw [List.any_eq_false]
    intro alt hmem
    have hhead := List.all_eq_true.mp halts alt hmem
    match alt, hhead with
    | RTok.lit a :: ts, hhead =>
      simp only [altHeadWord] at hhead
      match cs with
      | [] => simp [matchEnds]
      | x :: cs' =>
        have hx : jsWordChar x = false := h x (List.mem_cons_self x cs')
        have hne : x ≠ a := by
          intro heq
          rw [heq] at hx
          rw [hx] at hhead
          exact absurd hhead (by decide)
        simp [matchEnds, hne]
  rw [hany, Bool.and_false]

/-- The keyword scan over a wordless list never fires. -/
theorem kwScan_false (alts : List (List RTok)) (trailB : Bool)
    (halts : alts.all altHeadWord = true) :
    ∀ (prev : Option Char) (cs : List Char),
      (∀ c ∈ cs, jsWordChar c = false) → kwScan alts trailB prev cs = false := by
  intro prev cs
  induction cs generalizing prev with
  | nil => intro h; exact kwHere_false alts trailB prev [] halts h
  | cons c cs ih =>
    intro h
    unfold kwScan
    rw [kwHere_false alts trailB prev (c :: cs) halts h, Bool.false_or]
    exact ih (some c) fun x hx => h x (List.mem_cons_of_mem c hx)

/-- A `\b(alt|…)` keyword regex never matches a text without word
characters. -/
theorem kwTest_false_of_inert (alts : List (List RTok)) (trailB : Bool)
    (text : String) (halts : alts.all altHeadWord = true)
    (h : ∀ c ∈ text.toList, jsWordChar c = false) :
    kwTest alts trailB text = false :=
  kwScan_false alts trailB halts none (lowerList text) (lowerList_not_word text h)

/-- An anchored word regex never matches a text without word characters. -/
theorem anchoredTest_false_of_inert (words : List String) (text : String)
    (hw : words.all wordHeadWord = true)
    (h : ∀ c ∈ text.toList, jsWordChar c = false) :
    anchoredTest words text = false := by
  unfold anchoredTest
  rw [List.any_eq_false]
  intro w hmem
  have hhead := List.all_eq_true.mp hw w hmem
  unfold wordHeadWord at hhead
  have hcs := lowerList_not_word text h
  suffices hbq : ((lowerList text).take w.length == w.toList) = false by
    simp only [hbq, Bool.false_and, Bool.false_eq_true, not_false_eq_true]
  rw [beq_eq_false_iff_ne]
  intro heq
  match hwl : w.toList with
  | [] => rw [hwl] at hhead; exact absurd hhead (by decide)
  | a :: ws =>
    rw [hwl] at hhead heq
    have hlen : w.length = ws.length + 1 := by
      show w.toList.length = ws.length + 1
      rw [hwl]
      rfl
    match hls : lowerList text with
    | [] =>
      rw [hls] at heq
      simp at heq
    | x :: xs =>
      rw [hls, hlen, List.take_succ_cons] at heq
      have hxa : x = a := by injection heq
      have hx : jsWordChar x = false := by
        refine hcs x ?_
        rw [hls]
        exact List.mem_cons_self x xs
      rw [hxa] at hx
      have hhead' : jsWordChar a = true := hhead
      rw [hx] at hhead'
      exact absurd hhead' (by decide)

/-- No complex keyword fires on a text without word characters. -/
theorem complex_keywords_inert (text : String)
    (h : ∀ c ∈ text.toList, jsWordChar c = false) :
    ∀ e ∈ COMPLEX_KEYWORDS, e.test text = false := by
  intro e he
  simp only [COMPLEX_KEYWORDS, List.mem_cons, List.not_mem_nil, or_false] at he
  rcases he with rfl | rfl | rfl | rfl | rfl | rfl | rfl | rfl | rfl | rfl |
    rfl | rfl | rfl | rfl <;>
    exact kwTest_false_of_inert _ _ text (by decide) h

/-- No simple keyword fires on a text without word characters. -/
theorem simple_keywords_inert (text : String)
    (h : ∀ c ∈ text.toList, jsWordChar c = false) :
    ∀ e ∈ SIMPLE_KEYWORDS, e.test text = false := by
  intro e he
  simp only [SIMPLE_KEYWORDS, List.mem_cons, List.not_mem_nil, or_false] at he
  rcases he with rfl | rfl | rfl | rfl | rfl
  · exact kwTest_false_of_inert _ _ text (by decide) h
  · exact kwTest_false_of_inert _ _ text (by decide) h
  · exact kwTest_false_of_inert _ _ text (by decide) h
  · exact anchoredTest_false_of_inert _ text (by decide) h
  · exact anchoredTest_false_of_inert _ text (by decide) h

/-- The keyword loop is the identity when no entry fires. -/
theorem kwFold_id (entries : List KwEntry) (text : String)
    (h : ∀ e ∈ entries, e.test text = false) :
    ∀ st, kwFold entries text st = st := by
  induction entries with
  | nil => intro st; rfl
  | cons e es ih =>
    intro st
    have he : e.test text = false := h e (List.mem_cons_self e es)
    have : kwFold (e :: es) text st = kwFold es text st := by
      unfold kwFold
      obtain ⟨s, ts⟩ := st
      simp [he]
    rw [this]
    exact ih (fun e' he' => h e' (List.mem_cons_of_mem e he')) st

set_option maxHeartbeats 1000000 in
/-- On a text without word characters the classifier either takes the
post-tool shortcut or returns a heuristic score below 0.7 whose tags are
all word-count or tool-frequency tags. -/
theorem classify_inert (context : Context) (rcfg : RoutingCfg)
    (h2 : firstMatch rcfg.forceCloudPatterns
      (lastUserText context.messages) = none)
    (h3 : firstMatch rcfg.forceLocalPatterns
      (lastUserText context.messages) = none)
    (h1 : ∀ c ∈ (lastUserText context.messages).toList, jsWordChar c = false) :
    classifyComplexity context rcfg =
        ⟨0, "post-tool-turn", ["post-tool"]⟩ ∨
      ((classifyComplexity context rcfg).reason = "heuristic" ∧
       (classifyComplexity context rcfg).score < 0.7 ∧
       ∀ t ∈ (classifyComplexity context rcfg).tags,
         t = "long-prompt" ∨ t = "very-long-prompt" ∨ t = "tool-heavy-ctx") := by
  have hkC := kwFold_id COMPLEX_KEYWORDS _ (complex_keywords_inert _ h1)
  have hkS := kwFold_id SIMPLE_KEYWORDS _ (simple_keywords_inert _ h1)
  unfold classifyComplexity
  dsimp only
  rw [h2, h3]
  dsimp only
  split
  · left
    rfl
  · right
    rw [hkC, hkS]
    split_ifs <;>
      first
        | exact ⟨rfl,
            clamp01_lt _ _ (by norm_num) (by norm_num) (by norm_num),
            by decide⟩
        | simp_all [nonComplexTag]

set_option maxHeartbeats 1000000 in
/-- C6 (amended): for a context whose last user text has no word character
(empty, whitespace-only or emoji-only) and matches no force pattern, the
decision's target is `local` or `local-text`, provided cloud is unavailable,
or the preference is `local-only`, or the preference is `prefer-local` with
a local text model present.  (With cloud available, `cloud-only` and
`prefer-cloud` route such texts to cloud — see the counterexample.) -/
theorem wordless_text_routes_local (context : Context) (routerCfg : RouterCfg)
    (models : Models) (cred : CredEnv)
    (h1 : ∀ c ∈ (lastUserText context.messages).toList, jsWordChar c = false)
    (h2 : firstMatch routerCfg.routing.forceCloudPatterns
      (lastUserText context.messages) = none)
    (h3 : firstMatch routerCfg.routing.forceLocalPatterns
      (lastUserText context.messages) = none)
    (h4 : (models.cloud.isSome &&
        hasCloudApiKey routerCfg.cloudModel cred) = false ∨
      routerCfg.preference = "local-only" ∨
      (routerCfg.preference = "prefer-local" ∧
        models.localText.isSome = true)) :
    (makeRoutingDecision context routerCfg models cred).target = "local" ∨
    (makeRoutingDecision context routerCfg models cred).target =
      "local-text" := by
  rcases classify_inert context routerCfg.routing h2 h3 h1 with
    hpt | ⟨hr, hsc, htags⟩
  · unfold makeRoutingDecision
    dsimp only
    rw [hpt]
    dsimp only
    rcases h4 with hca | hlo | ⟨hpl, hlt⟩
    · rw [hca]
      split_ifs <;> simp_all [pick]
    · rw [if_pos hlo]
      left
      rfl
    · split_ifs <;> simp_all [pick]
  · have hany : ((classifyComplexity context routerCfg.routing).tags.any
        fun t => CLOUD_REQUIRED_TAGS.contains t) = false := by
      rw [List.any_eq_false]
      intro t ht
      rcases htags t ht with rfl | rfl | rfl <;> decide
    unfold makeRoutingDecision
    dsimp only
    rw [hany]
    rcases h4 with hca | hlo | ⟨hpl, hlt⟩
    · rw [hca]
      split_ifs <;> simp_all [pick]
    · rw [if_pos hlo]
      left
      rfl
    · split_ifs <;> simp_all [pick]

/-- Config of the C6 examples under `prefer-local`. -/
def cfgC6w : RouterCfg :=
  { preference := "prefer-local", cloudModel := some cloudRef }

/-- C6 witness: the empty user text under `prefer-local` with a text model
and cloud available stays on a local target. -/
theorem wordless_text_routes_local_witness :
    (∀ c ∈ (lastUserText (userCtx "").messages).toList,
      jsWordChar c = false) ∧
    ((makeRoutingDecision (userCtx "") cfgC6w modelsAll credKey).target =
        "local" ∨
     (makeRoutingDecision (userCtx "") cfgC6w modelsAll credKey).target =
        "local-text") :=
  ⟨by decide,
    wordless_text_routes_local (userCtx "") cfgC6w modelsAll credKey
      (by decide) rfl rfl (Or.inr (Or.inr ⟨rfl, rfl⟩))⟩

/-- Config of the C6 counterexample: `prefer-cloud` with cloud available
(the threshold is the default 1/2, written as a kernel-reducible rational). -/
def cfgC6x : RouterCfg :=
  { preference := "prefer-cloud", cloudModel := some cloudRef,
    routing := { complexityThreshold := mkRat 1 2 } }

/-- C6 counterexample: under `prefer-cloud` with cloud available, the empty
user text routes to `cloud` (`simple+prefer-cloud`), so the claim's "for
every preference mode and credential state" fails. -/
theorem wordless_text_counterexample :
    lastUserText (userCtx "").messages = "" ∧
    (makeRoutingDecision (userCtx "") cfgC6x modelsAll credKey).target =
      "cloud" ∧
    ¬((makeRoutingDecision (userCtx "") cfgC6x modelsAll credKey).target =
        "local" ∨
      (makeRoutingDecision (userCtx "") cfgC6x modelsAll credKey).target =
        "local-text") :=
  ⟨rfl, by decide, by decide⟩

/-- A post-tool context whose most recent assistant message was produced by
the cloud provider `anthropic` (scenario 15 of the routing benchmark). -/
def ctxCloudPostTool : Context :=
  ⟨[⟨"user", MsgContent.str "what are the latest tech news?", none, none⟩,
    ⟨"assistant", MsgContent.parts [⟨"toolCall", ""⟩], some "anthropic",
      some "claude-sonnet-4-5"⟩,
    ⟨"toolResult", MsgContent.str "headline data", none, none⟩], [], ""⟩

/-- Config of the C1 evaluation: `prefer-local` with cloud configured. -/
def cfgC1 : RouterCfg :=
  { preference := "prefer-local", cloudModel := some cloudRef }

/-- C1: the shipped router has no cloud-session-affinity override.  On a
post-tool turn whose most recent assistant message carries the cloud
provider `anthropic`, with cloud available and preference not `local-only`,
`makeRoutingDecision` returns target `local` with reason `post-tool-turn` —
not `cloud` as the claim (and the repository's own test suite, which
imports a `wasLastAssistantCloud` helper the router never defines) demands. -/
theorem cloud_affinity_missing_eval :
    isPostToolTurn ctxCloudPostTool.messages = true ∧
    (ctxCloudPostTool.messages.get? 1).bind (fun m => m.provider) =
      some "anthropic" ∧
    (modelsAll.cloud.isSome && hasCloudApiKey cfgC1.cloudModel credKey) =
      true ∧
    cfgC1.preference ≠ "local-only" ∧
    (makeRoutingDecision ctxCloudPostTool cfgC1 modelsAll credKey).target =
      "local" ∧
    (makeRoutingDecision ctxCloudPostTool cfgC1 modelsAll credKey).reason =
      "post-tool-turn" :=
  ⟨rfl, rfl, by decide, by decide, by decide, by decide⟩

/-- Joining a list whose tail is nonempty starts with its head. -/
theorem jsJoin_cons_prefix (sep a : String) (l : List String) (hl : l ≠ []) :
    ∃ rest, jsJoin sep (a :: l) = a ++ rest := by
  match l with
  | [] => exact absurd rfl hl
  | b :: bs =>
    refine ⟨sep ++ jsJoin sep (b :: bs), ?_⟩
    rw [show jsJoin sep (a :: b :: bs) =
      a ++ sep ++ jsJoin sep (b :: bs) from rfl, String.append_assoc]

/-- C9 (amended): when no agent name is extracted (identity file missing or
no `**Name:**` line with a truthy value), the preamble falls back to one
that begins with "You are a helpful AI assistant." — the never-identify
sentence and other extracted parts still follow, so the preamble is not
literally that sentence (see the counterexample). -/
theorem identity_fallback_prefix (w : WorkspaceFiles)
    (h : strTruthy (w.identityMd.bind (extractLabel "Name")) = false) :
    ∃ rest, buildIdentityPreamble (some w) =
      "You are a helpful AI assistant." ++ rest := by
  unfold buildIdentityPreamble
  dsimp only
  rw [h]
  simp only [Bool.false_and]
  rw [if_neg (by decide : ¬(false = true)),
    if_neg (by decide : ¬(false = true)),
    if_neg (by decide : ¬(false = true))]
  simp only [List.cons_append, List.nil_append, List.append_assoc]
  refine jsJoin_cons_prefix " " _ _ ?_
  simp

/-- The workspace with all three files missing. -/
def wsEmpty : WorkspaceFiles := ⟨none, none, none⟩

/-- C9 witness: with no identity file at all the preamble begins with the
fallback sentence. -/
theorem identity_fallback_prefix_witness :
    strTruthy (wsEmpty.identityMd.bind (extractLabel "Name")) = false ∧
    ∃ rest, buildIdentityPreamble (some wsEmpty) =
      "You are a helpful AI assistant." ++ rest :=
  ⟨rfl, identity_fallback_prefix wsEmpty rfl⟩

/-- C9 counterexample: with no extractable name the preamble is not the
bare sentence "You are a helpful AI assistant." — the never-identify
sentence is always appended. -/
theorem identity_fallback_counterexample :
    wsEmpty.identityMd.bind (extractLabel "Name") = none ∧
    buildIdentityPreamble (some wsEmpty) ≠ "You are a helpful AI assistant." ∧
    buildIdentityPreamble (some wsEmpty) =
      "You are a helpful AI assistant. Never say you are Gemma, LLaMA, or any other model. You are only this assistant." :=
  ⟨rfl, by decide, by decide⟩

end HybridClaw
